import Mathlib

/-!
Shallow embedding of the chat-over-WebSocket gateway
(`src/chat/websocket.py` together with `src/auth/security.py`).

The embedding keeps the source's names where Lean allows it:
`check_message_size`, `check_rate_limit` (as `mgr_check_rate_limit`),
`connect` / `disconnect` (as `mgr_connect` / `mgr_disconnect`),
`process_chat_message`, `monitor_token_expiry` (its wake-decision phase),
`handle_chat` (as `handle_chat_full`), `is_token_expired`.

External collaborators (the JWT decoder, the SQL store, the LLM backend)
are parameters, exactly as the spec treats them: opaque functions.
Python floats for `time.time()` are modelled as rationals, Unix-second
integers as `Int`, and Python dictionaries as association lists with
unique keys.
-/

/-- `ConnectionManager.MAX_CONNECTIONS_PER_USER`. -/
def MAX_CONNECTIONS_PER_USER : Nat := 5

/-- `ConnectionManager.MAX_MESSAGES_PER_MINUTE`. -/
def MAX_MESSAGES_PER_MINUTE : Nat := 30

/-- `ConnectionManager.MAX_MESSAGE_SIZE = 64 * 1024` bytes. -/
def MAX_MESSAGE_SIZE : Nat := 64 * 1024

/-- `ConnectionManager.check_message_size`: `len(message.encode("utf-8")) <= MAX_MESSAGE_SIZE`.
`sizeBytes` is the UTF-8 byte length of `json.dumps(data)` for the inbound frame. -/
def check_message_size (sizeBytes : Nat) : Bool :=
  sizeBytes ≤ MAX_MESSAGE_SIZE

/-- `is_token_expired` from `src/auth/security.py`: `int(time.time()) > expires_at`. -/
def is_token_expired (nowSec : Int) (expires_at : Int) : Bool :=
  expires_at < nowSec

/-- Dictionary lookup (`d.get(k)` / `k in d`), dictionaries as association lists. -/
def assocGet {α : Type} : List (String × α) → String → Option α
  | [], _ => none
  | (k2, v) :: t, k => if k2 = k then some v else assocGet t k

/-- Dictionary write `d[k] = v`. -/
def assocSet {α : Type} : List (String × α) → String → α → List (String × α)
  | [], k, v => [(k, v)]
  | (k2, v2) :: t, k, v => if k2 = k then (k, v) :: t else (k2, v2) :: assocSet t k v

/-- Dictionary delete `del d[k]` (keys are unique in a Python dict, so removing
every occurrence models deletion). -/
def assocErase {α : Type} : List (String × α) → String → List (String × α)
  | [], _ => []
  | (k2, v) :: t, k => if k2 = k then assocErase t k else (k2, v) :: assocErase t k

/-- Per-connection record held in `ConnectionManager.active_connections`
(the `websocket` handle itself carries no protocol state and is elided). -/
structure ConnInfo where
  user_id : String
  auth_time : Option ℚ
  token_exp : Option Int
deriving DecidableEq

/-- `ConnectionManager`'s mutable state. -/
structure Manager where
  active_connections : List (String × ConnInfo)
  user_connections : List (String × List String)
  message_counts : List (String × List ℚ)
deriving DecidableEq

/-- `ConnectionManager.connect` for an authenticated user (`user_id` is always
set at the one call site): insert an empty per-user set if missing, refuse when
the per-user ceiling is reached, otherwise register the connection. -/
def mgr_connect (m : Manager) (client_id user_id : String) : Bool × Manager :=
  let ucs := (assocGet m.user_connections user_id).getD []
  let m0 : Manager := { m with user_connections := assocSet m.user_connections user_id ucs }
  if MAX_CONNECTIONS_PER_USER ≤ ucs.length then
    (false, m0)
  else
    let ucs2 := if ucs.contains client_id then ucs else client_id :: ucs
    (true,
      { m0 with
        user_connections := assocSet m0.user_connections user_id ucs2
        active_connections := assocSet m0.active_connections client_id ⟨user_id, none, none⟩
        message_counts := assocSet m0.message_counts client_id [] })

/-- `ConnectionManager.disconnect`: no-op when the id is unknown; otherwise
remove the id from the per-user set (dropping the set when it empties),
then delete the connection record and its rate window. -/
def mgr_disconnect (m : Manager) (client_id : String) : Manager :=
  match assocGet m.active_connections client_id with
  | none => m
  | some info =>
    let m1 : Manager :=
      match assocGet m.user_connections info.user_id with
      | none => m
      | some s =>
        let s2 := s.erase client_id
        if s2.isEmpty then
          { m with user_connections := assocErase m.user_connections info.user_id }
        else
          { m with user_connections := assocSet m.user_connections info.user_id s2 }
    { m1 with
      active_connections := assocErase m1.active_connections client_id
      message_counts := assocErase m1.message_counts client_id }

/-- `ConnectionManager.check_rate_limit`: prune timestamps older than one
minute (strictly: keep `now - t < 60`), store the pruned list back, reject
when the window already holds `MAX_MESSAGES_PER_MINUTE` entries, otherwise
record `now` and admit. -/
def mgr_check_rate_limit (m : Manager) (client_id : String) (now : ℚ) : Bool × Manager :=
  let counts := (assocGet m.message_counts client_id).getD []
  let pruned := counts.filter (fun t => now - t < 60)
  if MAX_MESSAGES_PER_MINUTE ≤ pruned.length then
    (false, { m with message_counts := assocSet m.message_counts client_id pruned })
  else
    (true, { m with message_counts := assocSet m.message_counts client_id (pruned ++ [now]) })

/-! String utilities mirroring Python's `str.lower`, `in`, and the
`re.search(r"(?:extract|paste|copy).*?:\s*(.*)", message, IGNORECASE | DOTALL)`
pattern of `process_chat_message`. -/

/-- Python `message.lower()` (the keywords involved are pure ASCII). -/
def lowerStr (s : String) : String :=
  String.mk (s.toList.map Char.toLower)

/-- Python `needle in hay` on strings (substring test). -/
def containsSub (need : List Char) : List Char → Bool
  | [] => need.isPrefixOf []
  | c :: t => need.isPrefixOf (c :: t) || containsSub need t

/-- Python `need in hay`. -/
def strContains (hay need : String) : Bool :=
  containsSub need.toList hay.toList

/-- Python `any(keyword in hay for keyword in kws)`. -/
def containsAny (hay : String) (kws : List String) : Bool :=
  kws.any (fun k => strContains hay k)

/-- Python's `\s` class and `str.strip()` whitespace. -/
def isSpaceChar (c : Char) : Bool :=
  c = ' ' || c = '\t' || c = '\n' || c = '\r' || c = '\x0b' || c = '\x0c'

/-- Leftmost case-insensitive occurrence of one of `kws`; returns the rest of
the (original-case) text after the matched keyword, as the regex alternation
`(?:extract|paste|copy)` with `re.IGNORECASE` does. -/
def findKwRest (kws : List (List Char)) : List Char → Option (List Char)
  | [] => none
  | c :: t =>
    match kws.find? (fun k => k.isPrefixOf ((c :: t).map Char.toLower)) with
    | some k => some ((c :: t).drop k.length)
    | none => findKwRest kws t

/-- The lazy `.*?:` — everything after the first colon, if any. -/
def afterColon : List Char → Option (List Char)
  | [] => none
  | c :: t => if c = ':' then some t else afterColon t

/-- Python `str.strip()` (leading and trailing whitespace removed). -/
def pyStrip (l : List Char) : List Char :=
  ((l.dropWhile isSpaceChar).reverse.dropWhile isSpaceChar).reverse

/-- `re.search(r"(?:extract|paste|copy).*?:\s*(.*)", message, IGNORECASE | DOTALL)`
followed by `.group(1).strip()`: the captured body after the first keyword
occurrence and the first subsequent colon, or `none` when the pattern fails. -/
def extractBody (message : String) : Option (String) :=
  match findKwRest ["extract".toList, "paste".toList, "copy".toList] message.toList with
  | none => none
  | some rest =>
    match afterColon rest with
    | none => none
    | some r => some (String.mk (pyStrip (r.dropWhile isSpaceChar)))

/-- The JSON `recipe_data` document, restricted to the keys
`process_chat_message` reads or writes (`id`, `title`, `created_at`,
`updated_at`) plus `ingredients`, whose Python truthiness (present and
non-empty) gates the modify/suggest branches. `none` models an absent key. -/
structure RecipeData where
  id : Option String := none
  title : Option String := none
  created_at : Option String := none
  updated_at : Option String := none
  ingredients : List String := []
deriving DecidableEq

/-- The `Recipe` database row: primary key plus its JSON document. -/
structure Recipe where
  id : String
  recipe_data : RecipeData
deriving DecidableEq

/-- The Generation Backend (`src/llm/recipe_processor.py`), opaque as in the
spec: each mode either returns a document / advisory text or raises, the
raised exception carried as its `str(e)` message. -/
structure Backend where
  extract_recipe_from_text : String → Except String RecipeData
  generate_recipe_from_prompt : String → Except String RecipeData
  modify_recipe : RecipeData → String → Except String RecipeData
  get_recipe_suggestions : RecipeData → String → Except String String

/-- Keyword lists of `process_chat_message`, in source order. -/
def extractKWs : List String := ["extract", "paste", "copy"]

/-- Creation-intent keywords. -/
def createKWs : List String := ["create", "make", "generate", "recipe for"]

/-- Modification-intent keywords. -/
def modifyKWs : List String := ["change", "modify", "update", "make it", "convert", "substitute", "replace"]

/-- Suggestion-intent keywords. -/
def suggestKWs : List String := ["suggest", "tip", "help", "advice"]

/-- The branch of `process_chat_message`'s if/elif chain. -/
inductive IntentStep where
  | extractS
  | createS
  | modifyS
  | suggestS
  | fallbackS
deriving DecidableEq

/-- The guard chain of `process_chat_message`, verbatim: keyword tests on the
lowercased message, tried in source order, the modify and suggest guards
additionally requiring `current_recipe_data.get("ingredients")` to be truthy. -/
def intentStep (message : String) (cur : RecipeData) : IntentStep :=
  let l := lowerStr message
  if containsAny l extractKWs then .extractS
  else if containsAny l createKWs then .createS
  else if !cur.ingredients.isEmpty && containsAny l modifyKWs then .modifyS
  else if !cur.ingredients.isEmpty && containsAny l suggestKWs then .suggestS
  else .fallbackS

/-- Fixed apology stem of `process_chat_message`'s `except` clause:
`f"Sorry, I couldn't process that request. {str(e)}"`. -/
def apologyStem : String := "Sorry, I couldn\x27t process that request. "

/-- The fixed error text of `handle_chat`'s per-message `except` clause. -/
def apologyRetry : String := "Sorry, I couldn\x27t process that request. Please try again."

/-- Help text returned when no intent matches and the recipe is empty. -/
def helpEmptyMsg : String :=
  "I can help you create a recipe! You can:\n- Ask me to create a specific recipe (e.g., \x27Create a pasta recipe for 4\x27)\n- Paste a recipe text for me to extract (e.g., \x27Extract recipe from: [your text]\x27)\n- Or describe what you\x27d like to cook!"

/-- Help text returned when no intent matches and the recipe is populated. -/
def helpFullMsg : String :=
  "I can help you with this recipe. You can ask me to:\n- Modify it (e.g., \x27Make it vegetarian\x27)\n- Get suggestions (e.g., \x27Suggest wine pairings\x27)\n- Convert units or scale servings\nWhat would you like to do?"

/-- Result of `process_chat_message`: the returned `(content, recipe_data)`
pair plus the recipe row as left in the database (mutated and committed by the
extract/create/modify branches, untouched otherwise). -/
structure ProcResult where
  content : String
  recipe_data : Option RecipeData
  recipe : Recipe
deriving DecidableEq

/-- `process_chat_message`, branching exactly along `intentStep` (the guards
are the source's if/elif chain). `now` is `datetime.utcnow().isoformat()`.
Every backend exception is caught locally and turned into the apology stem
followed by `str(e)`, with `recipe_data = None`. In the create branch the
database commit happens before `recipe_data["title"]` is read for the reply,
so a missing title raises `KeyError("title")` after the mutation persisted. -/
def process_chat_message (B : Backend) (now : String) (message : String) (recipe : Recipe) :
    ProcResult :=
  let cur := recipe.recipe_data
  match intentStep message cur with
  | .extractS =>
    match extractBody message with
    | some body =>
      match B.extract_recipe_from_text body with
      | .ok rd0 =>
        let rd : RecipeData :=
          { rd0 with
            id := some recipe.id
            created_at := some (cur.created_at.getD now)
            updated_at := some now }
        ⟨"I\x27ve extracted the recipe from your text. Here\x27s what I found:",
          some rd, { recipe with recipe_data := rd }⟩
      | .error e => ⟨apologyStem ++ e, none, recipe⟩
    | none =>
      ⟨"Please paste the recipe text after \x27Extract recipe from:\x27 and I\x27ll help you structure it.",
        none, recipe⟩
  | .createS =>
    match B.generate_recipe_from_prompt message with
    | .ok rd0 =>
      let rd : RecipeData :=
        { rd0 with
          id := some recipe.id
          created_at := some (cur.created_at.getD now)
          updated_at := some now }
      match rd.title with
      | some t =>
        ⟨"I\x27ve created a " ++ t ++ " recipe for you!", some rd, { recipe with recipe_data := rd }⟩
      | none =>
        ⟨apologyStem ++ "\x27title\x27", none, { recipe with recipe_data := rd }⟩
    | .error e => ⟨apologyStem ++ e, none, recipe⟩
  | .modifyS =>
    match B.modify_recipe cur message with
    | .ok rd0 =>
      let rd : RecipeData := { rd0 with updated_at := some now }
      ⟨"I\x27ve updated your recipe based on your request.", some rd,
        { recipe with recipe_data := rd }⟩
    | .error e => ⟨apologyStem ++ e, none, recipe⟩
  | .suggestS =>
    match B.get_recipe_suggestions cur message with
    | .ok s => ⟨s, some cur, recipe⟩
    | .error e => ⟨apologyStem ++ e, none, recipe⟩
  | .fallbackS =>
    if cur.ingredients.isEmpty then ⟨helpEmptyMsg, none, recipe⟩
    else ⟨helpFullMsg, some cur, recipe⟩

/-- An exception occurs while `process_chat_message` handles `message`:
the taken branch's backend call raises, or (create branch) the returned
document lacks `"title"` so the reply's f-string raises `KeyError`. -/
def backendRaises (B : Backend) (message : String) (recipe : Recipe) : Bool :=
  let cur := recipe.recipe_data
  match intentStep message cur with
  | .extractS =>
    match extractBody message with
    | some body =>
      match B.extract_recipe_from_text body with
      | .ok _ => false
      | .error _ => true
    | none => false
  | .createS =>
    match B.generate_recipe_from_prompt message with
    | .ok rd0 => rd0.title.isNone
    | .error _ => true
  | .modifyS =>
    match B.modify_recipe cur message with
    | .ok _ => false
    | .error _ => true
  | .suggestS =>
    match B.get_recipe_suggestions cur message with
    | .ok _ => false
    | .error _ => true
  | .fallbackS => false

/-- Actions the Expiry Monitor can take, in order, during one wake cycle. -/
inductive MonAct where
  | sleep (seconds : ℚ)
  | sendAuthRequired (reason : String)
  | waitReauth (timeoutSeconds : ℚ)
deriving DecidableEq

/-- The wake-decision phase of `monitor_token_expiry`:
`time_until_warning = max(0, token_expiry - current_time - 60)`, and the
entire send / wait-for-re-auth block sits under
`if time_until_warning > 0:` — when the guard is false the coroutine
falls through and ends without doing anything. The re-auth handling that
follows a send is elided here: it is unreachable when the guard is false. -/
def monitor_token_expiry_first_phase (token_expiry current_time : ℚ) : List MonAct :=
  let time_until_warning := max 0 (token_expiry - current_time - 60)
  if 0 < time_until_warning then
    [.sleep time_until_warning, .sendAuthRequired "Token expiring soon", .waitReauth 30]
  else
    []

/-- A decoded JWT payload as `decode_access_token` returns it:
`payload.get("exp", 0)` and `payload.get("sub")`. -/
structure TokenPayload where
  exp : Option Int := none
  sub : Option String := none
deriving DecidableEq

/-- An inbound frame that parsed as JSON, reduced to the fields
`handle_chat` reads: serialized size, `data.get("type")`, whether the
pydantic model (`AuthMessage` / `ChatMessage`) validates, the message id
after validation, `payload.get("content")` and `payload.get("token")`. -/
structure Envelope where
  size : Nat
  type_ : Option String
  parseOk : Bool
  msgId : String
  content : Option String
  token : Option String
deriving DecidableEq

/-- What `websocket.receive_json()` yields inside the steady-state loop. -/
inductive Inbound where
  | badJson
  | badFormat
  | env (e : Envelope)
deriving DecidableEq

/-- One receive event, with the clocks read during its handling:
`time.time()` as a rational, `datetime.utcnow().isoformat()` and
`int(time.time())`. -/
structure Event where
  t : ℚ
  iso : String
  wall : Int
  ev : Inbound
deriving DecidableEq

/-- A frame or close sent to the client. -/
inductive Outbound where
  | recipeUpdate (request_id : Option String) (content : String) (recipe_data : Option RecipeData)
  | authRequired (reason : String)
  | close (code : Nat) (reason : String)
deriving DecidableEq

/-- Recognizer for `recipe_update` envelopes. -/
def isRecipeUpdate : Outbound → Bool
  | .recipeUpdate _ _ _ => true
  | _ => false

/-- Local state of `handle_chat`'s steady-state loop: the recipe row the
connection works on and the last successfully validated `ChatMessage`
(Python's `msg`, consulted by `'msg' in locals()`). -/
structure ConnState where
  recipe : Recipe
  lastMsgId : Option String
deriving DecidableEq

/-- One iteration of `handle_chat`'s `while True` loop, for one inbound
event. Returns the frames sent, `some` of the next state when the loop
continues (`none` when the handler returned), and the manager state.
Mirrors the source order: JSON receive errors close; the size ceiling is
checked, then the rate limiter; then dispatch on `data.get("type")`.
A pydantic validation failure lands in the per-message `except`, which
answers with the fixed-retry `recipe_update` (tagged with the previous
`msg.id`, if any) and keeps the loop alive. -/
def stepConn (B : Backend) (decode : Option String → Option TokenPayload)
    (m : Manager) (client_id : String) (st : ConnState) (ev : Event) :
    List Outbound × Option ConnState × Manager :=
  match ev.ev with
  | .badJson => ([.close 1008 "Invalid JSON"], none, m)
  | .badFormat => ([.close 1008 "Invalid message format"], none, m)
  | .env e =>
    if !check_message_size e.size then
      ([.close 1009 "Message too large"], none, m)
    else
      let rl := mgr_check_rate_limit m client_id ev.t
      if !rl.1 then
        ([.close 1008 "Rate limit exceeded"], none, rl.2)
      else if e.type_ = some "auth" then
        if e.parseOk then
          match decode e.token with
          | none => ([.close 1008 "Invalid or expired token"], none, rl.2)
          | some p =>
            if is_token_expired ev.wall (p.exp.getD 0) then
              ([.close 1008 "Invalid or expired token"], none, rl.2)
            else
              ([], some st, rl.2)
        else
          ([.recipeUpdate st.lastMsgId apologyRetry none], some st, rl.2)
      else if e.type_ = some "chat_message" then
        if e.parseOk then
          if (e.content.getD "") = "" then
            ([], some ⟨st.recipe, some e.msgId⟩, rl.2)
          else
            let r := process_chat_message B ev.iso (e.content.getD "") st.recipe
            ([.recipeUpdate (some e.msgId) r.content r.recipe_data],
              some ⟨r.recipe, some e.msgId⟩, rl.2)
        else
          ([.recipeUpdate st.lastMsgId apologyRetry none], some st, rl.2)
      else
        ([], some st, rl.2)

/-- The steady-state loop over a finite prefix of inbound events; an
exhausted list models the transport disconnecting (the `WebSocketDisconnect`
path). Returns all frames sent, `some` final state if still open, and the
manager. -/
def runConn (B : Backend) (decode : Option String → Option TokenPayload)
    (m : Manager) (client_id : String) (st : ConnState) :
    List Event → List Outbound × Option ConnState × Manager
  | [] => ([], some st, m)
  | ev :: rest =>
    let s := stepConn B decode m client_id st ev
    match s.2.1 with
    | none => (s.1, none, s.2.2)
    | some st2 =>
      let r := runConn B decode s.2.2 client_id st2 rest
      (s.1 ++ r.1, r.2.1, r.2.2)

/-- What the 5-second wait for the first message produced. -/
inductive FirstRecv where
  | timeout
  | got (e : Envelope)
deriving DecidableEq

/-- Outcome of `handle_chat`'s authentication prologue. -/
inductive AuthOutcome where
  | closed (code : Nat) (reason : String)
  | connected (user_id : String) (exp : Int) (recipe : Recipe)
deriving DecidableEq

/-- The authentication prologue of `handle_chat`, check for check:
first-message type, pydantic validation, token presence (Python truthiness,
so an empty string counts as missing), `decode_access_token`,
`is_token_expired`, `payload.get("sub")` truthiness, the user lookup, and
the owner-scoped recipe lookup. `findRecipe` is `get_recipe_for_user`
partially applied to the connection's `recipe_id`. -/
def authPhase (decode : Option String → Option TokenPayload) (wallNow : Int)
    (userExists : String → Bool) (findRecipe : String → Option Recipe)
    (fr : FirstRecv) : AuthOutcome :=
  match fr with
  | .timeout => .closed 1008 "Authentication timeout"
  | .got e =>
    if e.type_ ≠ some "auth" then .closed 1008 "First message must be auth"
    else if !e.parseOk then .closed 1008 "Invalid auth message format"
    else if (e.token.getD "") = "" then .closed 1008 "Missing auth token"
    else
      match decode (some (e.token.getD "")) with
      | none => .closed 1008 "Invalid token"
      | some p =>
        if is_token_expired wallNow (p.exp.getD 0) then .closed 1008 "Token expired"
        else if (p.sub.getD "") = "" then .closed 1008 "Invalid token payload"
        else if !userExists (p.sub.getD "") then .closed 1008 "User not found"
        else
          match findRecipe (p.sub.getD "") with
          | none => .closed 1008 "Recipe not found or access denied"
          | some r => .connected (p.sub.getD "") (p.exp.getD 0) r

/-- Everything `handle_chat` leaves behind: the outbound frames and the
final `ConnectionManager` state. -/
structure HandleResult where
  outs : List Outbound
  mgr : Manager
deriving DecidableEq

/-- `handle_chat` end to end: the authentication prologue; on success the
client id `f"{user.id}:{recipe_id}:{id(websocket)}"`, registration with the
connection-cap check, the auth bookkeeping on the registry entry, the
initial greeting `recipe_update` (carrying the document only when it has
ingredients), then the steady-state loop; and on every exit path the
`finally` block's `manager.disconnect(client_id)`. `authT` is the
`time.time()` read stored as `auth_time`. -/
def handle_chat_full (B : Backend) (decode : Option String → Option TokenPayload)
    (userExists : String → Bool) (findRecipe : String → Option Recipe)
    (wallNow : Int) (authT : ℚ) (recipe_id sockId : String)
    (m0 : Manager) (fr : FirstRecv) (events : List Event) : HandleResult :=
  match authPhase decode wallNow userExists findRecipe fr with
  | .closed c r => ⟨[.close c r], m0⟩
  | .connected uid exp recipe =>
    let cid := uid ++ ":" ++ recipe_id ++ ":" ++ sockId
    let cr := mgr_connect m0 cid uid
    if !cr.1 then
      ⟨[.close 1008 "Connection limit exceeded"], mgr_disconnect cr.2 cid⟩
    else
      let m2 : Manager :=
        { cr.2 with active_connections := assocSet cr.2.active_connections cid ⟨uid, some authT, some exp⟩ }
      let initUpd : Outbound :=
        .recipeUpdate none "Connected to recipe chat. How can I help you with this recipe?"
          (if recipe.recipe_data.ingredients.isEmpty then none else some recipe.recipe_data)
      let rc := runConn B decode m2 cid ⟨recipe, none⟩ events
      ⟨initUpd :: rc.1, mgr_disconnect rc.2.2 cid⟩

/-- An inbound event is a well-formed, admissible chat message: type
`chat_message`, validates, non-empty content, within the size ceiling. -/
def goodChatEv (ev : Event) : Bool :=
  match ev.ev with
  | .env e =>
    decide (e.type_ = some "chat_message") && e.parseOk &&
      decide (e.content.getD "" ≠ "") && check_message_size e.size
  | _ => false

/-! Concrete fixtures used by the witness theorems. -/

/-- A fresh `ConnectionManager` state. -/
def emptyManager : Manager := ⟨[], [], []⟩

/-- A manager right after a successful registration of connection `"c1"`. -/
def wCountsManager : Manager := ⟨[], [], [("c1", [])]⟩

/-- A token decoder rejecting everything. -/
def wDecode : Option String → Option TokenPayload := fun _ => none

/-- A decoder accepting one far-future token for subject `"alice"`. -/
def wDecodeTok : Option String → Option TokenPayload :=
  fun t => if t = some "good" then some ⟨some 2000000000, some "alice"⟩ else none

/-- A decoder that decodes `"expired"` to a long-past expiry. -/
def wExpDecode : Option String → Option TokenPayload :=
  fun t => if t = some "expired" then some ⟨some 100, some "alice"⟩ else none

/-- The user table containing exactly `"alice"`. -/
def wUserExists : String → Bool := fun u => u == "alice"

/-- An empty recipe row. -/
def wRecipe : Recipe := ⟨"recipe-1", {}⟩

/-- A recipe row whose document already has ingredients. -/
def wIngRecipe : Recipe := ⟨"recipe-2", { ingredients := ["flour"] }⟩

/-- `get_recipe_for_user` for the fixtures: `"alice"` owns the recipe. -/
def wFindRecipe : String → Option Recipe := fun u => if u == "alice" then some wRecipe else none

/-- A backend all of whose modes raise one exception. -/
def failBackendA : Backend :=
  ⟨fun _ => .error "OpenAI API error", fun _ => .error "OpenAI API error",
   fun _ _ => .error "OpenAI API error", fun _ _ => .error "OpenAI API error"⟩

/-- A backend all of whose modes raise a different exception. -/
def failBackendB : Backend :=
  ⟨fun _ => .error "timeout", fun _ => .error "timeout",
   fun _ _ => .error "timeout", fun _ _ => .error "timeout"⟩

/-- A well-formed inbound chat envelope whose text triggers the extract branch. -/
def wChatEnv : Envelope :=
  ⟨100, some "chat_message", true, "msg_1", some "extract recipe from: Pasta. Boil.", none⟩

/-- The event delivering `wChatEnv` at time 0. -/
def wEvent : Event := ⟨0, "2025-01-01T00:00:00", 1000, .env wChatEnv⟩

/-- A first message that is not an `auth` envelope. -/
def wNotAuthEnv : Envelope := ⟨50, some "chat_message", true, "m1", some "hi", none⟩

/-- A well-formed `auth` first message carrying the good token. -/
def wAuthEnv : Envelope := ⟨50, some "auth", true, "a1", none, some "good"⟩

/-- A well-formed `auth` first message carrying the expired token. -/
def wExpEnv : Envelope := ⟨50, some "auth", true, "a1", none, some "expired"⟩

/-- An inbound chat envelope whose serialization exceeds the 64 KiB ceiling. -/
def wBigEnv : Envelope := ⟨70000, some "chat_message", true, "m9", some "hi", none⟩

/-- The event delivering the oversized envelope. -/
def wBigEvent : Event := ⟨0, "2025-01-01T00:00:00", 1000, .env wBigEnv⟩

/-! Helper lemmas about the association-list dictionary model. -/

/-- Reading back a key just written. -/
lemma assocGet_assocSet_self {α : Type} (l : List (String × α)) (k : String) (v : α) :
    assocGet (assocSet l k v) k = some v := by
  induction l with
  | nil => simp [assocSet, assocGet]
  | cons hd t ih =>
    obtain ⟨k2, v2⟩ := hd
    by_cases hk : k2 = k
    · simp [assocSet, hk, assocGet]
    · simp [assocSet, hk, assocGet, ih]

/-- A deleted key is gone. -/
lemma assocGet_assocErase_self {α : Type} (l : List (String × α)) (k : String) :
    assocGet (assocErase l k) k = none := by
  induction l with
  | nil => simp [assocErase, assocGet]
  | cons hd t ih =>
    obtain ⟨k2, v2⟩ := hd
    by_cases hk : k2 = k
    · simp [assocErase, hk, ih]
    · simp [assocErase, hk, assocGet, ih]

/-! Rate-limiter lemmas. -/

/-- The admit bit is exactly "strictly fewer than the ceiling survive pruning". -/
lemma mgr_check_rate_limit_fst (m : Manager) (cid : String) (now : ℚ) :
    (mgr_check_rate_limit m cid now).1 =
      decide ((((assocGet m.message_counts cid).getD []).filter
        (fun t => now - t < 60)).length < MAX_MESSAGES_PER_MINUTE) := by
  unfold mgr_check_rate_limit
  by_cases h : MAX_MESSAGES_PER_MINUTE ≤
      (((assocGet m.message_counts cid).getD []).filter (fun t => now - t < 60)).length
  · simp only [h, if_true]
    exact (decide_eq_false (by omega)).symm
  · simp only [h, if_false]
    exact (decide_eq_true (by omega)).symm

/-- The stored window after a check: pruned plus the new stamp on admit,
just pruned on reject. -/
lemma mgr_check_rate_limit_snd_counts (m : Manager) (cid : String) (now : ℚ) :
    assocGet (mgr_check_rate_limit m cid now).2.message_counts cid =
      some (if (((assocGet m.message_counts cid).getD []).filter
              (fun t => now - t < 60)).length < MAX_MESSAGES_PER_MINUTE
            then (((assocGet m.message_counts cid).getD []).filter (fun t => now - t < 60)) ++ [now]
            else (((assocGet m.message_counts cid).getD []).filter (fun t => now - t < 60))) := by
  unfold mgr_check_rate_limit
  by_cases h : MAX_MESSAGES_PER_MINUTE ≤
      (((assocGet m.message_counts cid).getD []).filter (fun t => now - t < 60)).length
  · simp only [h, if_true]
    rw [if_neg (by omega)]
    exact assocGet_assocSet_self ..
  · simp only [h, if_false]
    rw [if_pos (by omega)]
    exact assocGet_assocSet_self ..

/-- A rate check never touches the registry, only the rate windows. -/
lemma mgr_check_rate_limit_keeps (m : Manager) (cid : String) (now : ℚ) :
    (mgr_check_rate_limit m cid now).2.active_connections = m.active_connections ∧
    (mgr_check_rate_limit m cid now).2.user_connections = m.user_connections := by
  unfold mgr_check_rate_limit
  by_cases h : MAX_MESSAGES_PER_MINUTE ≤
      (((assocGet m.message_counts cid).getD []).filter (fun t => now - t < 60)).length
  · simp [h]
  · simp [h]

/-- When every stored stamp is inside the trailing window and the window is
not yet full, the check admits and appends the new stamp. -/
lemma rate_admit_of_window (m : Manager) (cid : String) (now : ℚ)
    (hw : ∀ s ∈ (assocGet m.message_counts cid).getD [], now - s < 60)
    (hlen : ((assocGet m.message_counts cid).getD []).length < MAX_MESSAGES_PER_MINUTE) :
    mgr_check_rate_limit m cid now =
      (true, ⟨m.active_connections, m.user_connections,
        assocSet m.message_counts cid (((assocGet m.message_counts cid).getD []) ++ [now])⟩) := by
  have hf : ((assocGet m.message_counts cid).getD []).filter (fun t => now - t < 60) =
      (assocGet m.message_counts cid).getD [] :=
    List.filter_eq_self.mpr (fun a ha => decide_eq_true (hw a ha))
  simp only [mgr_check_rate_limit, hf]
  rw [if_neg (by omega)]

/-- When every stored stamp is inside the window and the window is full, the
check rejects. -/
lemma rate_reject_of_full (m : Manager) (cid : String) (now : ℚ)
    (hw : ∀ s ∈ (assocGet m.message_counts cid).getD [], now - s < 60)
    (hlen : MAX_MESSAGES_PER_MINUTE ≤ ((assocGet m.message_counts cid).getD []).length) :
    (mgr_check_rate_limit m cid now).1 = false := by
  have hf : ((assocGet m.message_counts cid).getD []).filter (fun t => now - t < 60) =
      (assocGet m.message_counts cid).getD [] :=
    List.filter_eq_self.mpr (fun a ha => decide_eq_true (hw a ha))
  simp only [mgr_check_rate_limit, hf]
  rw [if_pos hlen]

/-! Step lemmas for the steady-state loop. -/

/-- An admitted, well-formed, non-empty `chat_message` is dispatched to
`process_chat_message` and answered with exactly one `recipe_update` tagged
with the message's own id; the loop continues. -/
lemma stepConn_chat_eq {B : Backend} {decode : Option String → Option TokenPayload}
    {m : Manager} {cid : String} {st : ConnState} {ev : Event} {e : Envelope}
    (he : ev.ev = .env e) (ht : e.type_ = some "chat_message") (hp : e.parseOk = true)
    (hc : e.content.getD "" ≠ "") (hs : check_message_size e.size = true)
    (hrl : (mgr_check_rate_limit m cid ev.t).1 = true) :
    stepConn B decode m cid st ev =
      ([.recipeUpdate (some e.msgId)
          (process_chat_message B ev.iso (e.content.getD "") st.recipe).content
          (process_chat_message B ev.iso (e.content.getD "") st.recipe).recipe_data],
        some ⟨(process_chat_message B ev.iso (e.content.getD "") st.recipe).recipe, some e.msgId⟩,
        (mgr_check_rate_limit m cid ev.t).2) := by
  obtain ⟨t, iso, wall, iv⟩ := ev
  simp only at he
  subst he
  simp only [stepConn, ht, hp, hs, hrl, hc, Bool.not_true, Bool.false_eq_true, if_false,
    Option.some.injEq, reduceCtorEq, ite_false, ite_true, if_true]
  simp [hc]

/-- A well-formed `chat_message` arriving when the rate check rejects closes
the connection with 1008 / "Rate limit exceeded". -/
lemma stepConn_rate_reject {B : Backend} {decode : Option String → Option TokenPayload}
    {m : Manager} {cid : String} {st : ConnState} {ev : Event}
    (hg : goodChatEv ev = true)
    (hr : (mgr_check_rate_limit m cid ev.t).1 = false) :
    stepConn B decode m cid st ev =
      ([.close 1008 "Rate limit exceeded"], none, (mgr_check_rate_limit m cid ev.t).2) := by
  obtain ⟨t, iso, wall, iv⟩ := ev
  cases iv with
  | badJson => simp [goodChatEv] at hg
  | badFormat => simp [goodChatEv] at hg
  | env e =>
    simp only [goodChatEv, Bool.and_eq_true, decide_eq_true_eq] at hg
    obtain ⟨⟨⟨ht, hp⟩, hc⟩, hs⟩ := hg
    simp only [stepConn, hs, hr, Bool.not_true, Bool.not_false, Bool.false_eq_true, if_false,
      if_true]

/-- Shape of a successful chat step: one `recipe_update`, loop still open,
manager advanced by the rate check. -/
lemma stepConn_good_shape {B : Backend} {decode : Option String → Option TokenPayload}
    {m : Manager} {cid : String} {st : ConnState} {ev : Event}
    (hg : goodChatEv ev = true)
    (hrl : (mgr_check_rate_limit m cid ev.t).1 = true) :
    ∃ rid c rd st2, stepConn B decode m cid st ev =
      ([Outbound.recipeUpdate rid c rd], some st2, (mgr_check_rate_limit m cid ev.t).2) := by
  obtain ⟨t, iso, wall, iv⟩ := ev
  cases iv with
  | badJson => simp [goodChatEv] at hg
  | badFormat => simp [goodChatEv] at hg
  | env e =>
    simp only [goodChatEv, Bool.and_eq_true, decide_eq_true_eq] at hg
    obtain ⟨⟨⟨ht, hp⟩, hc⟩, hs⟩ := hg
    exact ⟨_, _, _, _, stepConn_chat_eq rfl ht hp hc hs hrl⟩

/-! Failure-path lemmas for `process_chat_message`. -/

/-- The apology stem glued to anything is never the empty string. -/
lemma apologyStem_append_ne_empty (s : String) : apologyStem ++ s ≠ "" := by
  intro h
  have h2 := congrArg String.length h
  rw [String.length_append] at h2
  have h3 : apologyStem.length = 40 := by decide
  rw [h3] at h2
  simp at h2

/-- When the taken branch raises, `process_chat_message` returns
`recipe_data = None` and the apology stem with `str(e)` appended. -/
lemma process_on_raise_aux (B : Backend) (now msg : String) (recipe : Recipe)
    (h : backendRaises B msg recipe = true) :
    (process_chat_message B now msg recipe).recipe_data = none ∧
    ∃ s, (process_chat_message B now msg recipe).content = apologyStem ++ s := by
  simp only [backendRaises] at h
  cases hi : intentStep msg recipe.recipe_data with
  | extractS =>
    cases hb : extractBody msg with
    | none => simp [hi, hb] at h
    | some body =>
      cases hx : B.extract_recipe_from_text body with
      | ok rd0 => simp [hi, hb, hx] at h
      | error e =>
        simp only [process_chat_message, hi, hb, hx]
        exact ⟨trivial, e, rfl⟩
  | createS =>
    cases hgen : B.generate_recipe_from_prompt msg with
    | ok rd0 =>
      simp only [hi, hgen] at h
      have ht : rd0.title = none := Option.isNone_iff_eq_none.mp h
      simp only [process_chat_message, hi, hgen, ht]
      exact ⟨trivial, "\x27title\x27", rfl⟩
    | error e =>
      simp only [process_chat_message, hi, hgen]
      exact ⟨trivial, e, rfl⟩
  | modifyS =>
    cases hx : B.modify_recipe recipe.recipe_data msg with
    | ok rd0 => simp [hi, hx] at h
    | error e =>
      simp only [process_chat_message, hi, hx]
      exact ⟨trivial, e, rfl⟩
  | suggestS =>
    cases hx : B.get_recipe_suggestions recipe.recipe_data msg with
    | ok s2 => simp [hi, hx] at h
    | error e =>
      simp only [process_chat_message, hi, hx]
      exact ⟨trivial, e, rfl⟩
  | fallbackS =>
    simp [hi] at h

/-- Over a run of admissible chat messages whose stamps all fall inside one
60-second window, the loop stays open, answers each message with exactly one
`recipe_update`, and the rate window accumulates exactly the stamps. -/
lemma runConn_admits (B : Backend) (decode : Option String → Option TokenPayload)
    (a : ℚ) (cid : String) :
    ∀ (evs : List Event) (m : Manager) (st : ConnState),
      (∀ ev ∈ evs, goodChatEv ev = true ∧ a ≤ ev.t ∧ ev.t < a + 60) →
      (∀ s ∈ (assocGet m.message_counts cid).getD [], a ≤ s ∧ s < a + 60) →
      ((assocGet m.message_counts cid).getD []).length + evs.length ≤ MAX_MESSAGES_PER_MINUTE →
      (∃ st2, (runConn B decode m cid st evs).2.1 = some st2) ∧
      (∀ o ∈ (runConn B decode m cid st evs).1, isRecipeUpdate o = true) ∧
      (runConn B decode m cid st evs).1.length = evs.length ∧
      (assocGet (runConn B decode m cid st evs).2.2.message_counts cid).getD [] =
        ((assocGet m.message_counts cid).getD []) ++ evs.map Event.t := by
  intro evs
  induction evs with
  | nil =>
    intro m st h1 h2 h3
    simp [runConn]
  | cons ev rest ih =>
    intro m st hg hwin hlen
    obtain ⟨hgev, hta, htb⟩ := hg ev (List.mem_cons_self ev rest)
    have hwnow : ∀ s ∈ (assocGet m.message_counts cid).getD [], ev.t - s < 60 := by
      intro s hs
      obtain ⟨h1, h2⟩ := hwin s hs
      linarith
    have hlen0 : ((assocGet m.message_counts cid).getD []).length < MAX_MESSAGES_PER_MINUTE := by
      simp only [List.length_cons] at hlen
      omega
    have hra := rate_admit_of_window m cid ev.t hwnow hlen0
    have hrl1 : (mgr_check_rate_limit m cid ev.t).1 = true := by rw [hra]
    obtain ⟨rid, c, rd, st2, hstep⟩ :=
      @stepConn_good_shape B decode m cid st ev hgev hrl1
    have hcounts2 : (assocGet (mgr_check_rate_limit m cid ev.t).2.message_counts cid).getD [] =
        ((assocGet m.message_counts cid).getD []) ++ [ev.t] := by
      rw [hra]
      simp [assocGet_assocSet_self]
    have IH := ih (mgr_check_rate_limit m cid ev.t).2 st2
      (fun e2 h2 => hg e2 (List.mem_cons_of_mem _ h2))
      (by
        rw [hcounts2]
        intro s hs
        rcases List.mem_append.mp hs with h | h
        · exact hwin s h
        · simp only [List.mem_singleton] at h
          subst h
          exact ⟨hta, htb⟩)
      (by
        rw [hcounts2]
        simp only [List.length_cons] at hlen
        simp only [List.length_append, List.length_singleton]
        omega)
    obtain ⟨⟨st3, hfin⟩, hall, hlenO, hcnt⟩ := IH
    simp only [runConn, hstep, List.singleton_append]
    refine ⟨⟨st3, hfin⟩, ?_, ?_, ?_⟩
    · intro o ho
      rcases List.mem_cons.mp ho with h | h
      · subst h
        rfl
      · exact hall o h
    · simp [hlenO]
    · rw [hcnt, hcounts2]
      simp [List.append_assoc]

/-- Splitting a run at a point where the loop is still open. -/
lemma runConn_append_of_some (B : Backend) (decode : Option String → Option TokenPayload)
    (cid : String) :
    ∀ (l1 : List Event) (m : Manager) (st : ConnState) (o1 : List Outbound)
      (st1 : ConnState) (m1 : Manager) (l2 : List Event),
      runConn B decode m cid st l1 = (o1, some st1, m1) →
      runConn B decode m cid st (l1 ++ l2) =
        (o1 ++ (runConn B decode m1 cid st1 l2).1, (runConn B decode m1 cid st1 l2).2) := by
  intro l1
  induction l1 with
  | nil =>
    intro m st o1 st1 m1 l2 h
    simp only [runConn] at h
    rw [Prod.mk.injEq, Prod.mk.injEq] at h
    obtain ⟨h1, h2, h3⟩ := h
    cases h2
    subst h1
    subst h3
    simp
  | cons ev rest ih =>
    intro m st o1 st1 m1 l2 h
    cases hs : (stepConn B decode m cid st ev).2.1 with
    | none =>
      simp only [runConn, hs] at h
      rw [Prod.mk.injEq, Prod.mk.injEq] at h
      exact absurd h.2.1 (by simp)
    | some stx =>
      simp only [runConn, hs] at h ⊢
      rw [Prod.mk.injEq, Prod.mk.injEq] at h
      obtain ⟨h1, h2, h3⟩ := h
      have hr : runConn B decode (stepConn B decode m cid st ev).2.2 cid stx rest =
          ((runConn B decode (stepConn B decode m cid st ev).2.2 cid stx rest).1, some st1, m1) := by
        rw [← h2, ← h3]
      have := ih (stepConn B decode m cid st ev).2.2 stx
        (runConn B decode (stepConn B decode m cid st ev).2.2 cid stx rest).1 st1 m1 l2 hr
      simp only [List.append_eq]
      rw [this, ← h1]
      simp [List.append_assoc]

/-- A loop step never touches the registry maps, only the rate windows. -/
lemma stepConn_keeps_registry (B : Backend) (decode : Option String → Option TokenPayload)
    (m : Manager) (cid : String) (st : ConnState) (ev : Event) :
    (stepConn B decode m cid st ev).2.2.active_connections = m.active_connections ∧
    (stepConn B decode m cid st ev).2.2.user_connections = m.user_connections := by
  have hk := mgr_check_rate_limit_keeps m cid ev.t
  obtain ⟨t, iso, wall, iv⟩ := ev
  cases iv with
  | badJson => exact ⟨rfl, rfl⟩
  | badFormat => exact ⟨rfl, rfl⟩
  | env e =>
    constructor
    · simp only [stepConn]
      split
      · rfl
      split
      · exact hk.1
      split
      · split
        · split
          · exact hk.1
          · split
            · exact hk.1
            · exact hk.1
        · exact hk.1
      split
      · split
        · split
          · exact hk.1
          · exact hk.1
        · exact hk.1
      · exact hk.1
    · simp only [stepConn]
      split
      · rfl
      split
      · exact hk.2
      split
      · split
        · split
          · exact hk.2
          · split
            · exact hk.2
            · exact hk.2
        · exact hk.2
      split
      · split
        · split
          · exact hk.2
          · exact hk.2
        · exact hk.2
      · exact hk.2

/-- The whole loop never touches the registry maps. -/
lemma runConn_keeps_registry (B : Backend) (decode : Option String → Option TokenPayload)
    (cid : String) :
    ∀ (evs : List Event) (m : Manager) (st : ConnState),
      (runConn B decode m cid st evs).2.2.active_connections = m.active_connections ∧
      (runConn B decode m cid st evs).2.2.user_connections = m.user_connections := by
  intro evs
  induction evs with
  | nil => intro m st; exact ⟨rfl, rfl⟩
  | cons ev rest ih =>
    intro m st
    have hstep := stepConn_keeps_registry B decode m cid st ev
    cases hs : (stepConn B decode m cid st ev).2.1 with
    | none =>
      simp only [runConn, hs]
      exact hstep
    | some stx =>
      have hrest := ih (stepConn B decode m cid st ev).2.2 stx
      simp only [runConn, hs]
      exact ⟨hrest.1.trans hstep.1, hrest.2.trans hstep.2⟩

/-- A rejected `connect` (cap reached) leaves the connection map and the rate
windows untouched. -/
lemma mgr_connect_reject (m : Manager) (cid uid : String)
    (h : (mgr_connect m cid uid).1 = false) :
    (mgr_connect m cid uid).2.active_connections = m.active_connections ∧
    (mgr_connect m cid uid).2.message_counts = m.message_counts := by
  by_cases hcond : MAX_CONNECTIONS_PER_USER ≤ ((assocGet m.user_connections uid).getD []).length
  · simp [mgr_connect, hcond]
  · simp [mgr_connect, hcond] at h

/-- Disconnecting a registered connection removes its record and its rate
window. -/
lemma mgr_disconnect_clears (m : Manager) (cid : String) (info : ConnInfo)
    (h : assocGet m.active_connections cid = some info) :
    assocGet (mgr_disconnect m cid).active_connections cid = none ∧
    assocGet (mgr_disconnect m cid).message_counts cid = none := by
  simp only [mgr_disconnect, h]
  cases hu : assocGet m.user_connections info.user_id with
  | none => simp [assocGet_assocErase_self]
  | some s =>
    by_cases he : (s.erase cid).isEmpty
    · simp [he, assocGet_assocErase_self]
    · simp [he, assocGet_assocErase_self]

/-- C1: in the Connected state, an admitted well-formed `chat_message` whose
processing fails (backend raise, malformed upstream output, or exception in
intent routing — all caught inside `process_chat_message`) is answered with
exactly one `recipe_update` whose `request_id` is the triggering message's
id, whose `content` is non-empty, and whose `recipe_data` is null; no error
envelope and no close is sent, and the loop stays open for further messages. -/
theorem C1_chat_failure_contained
    (B : Backend) (decode : Option String → Option TokenPayload)
    (m : Manager) (cid : String) (st : ConnState) (ev : Event) (e : Envelope)
    (he : ev.ev = .env e) (ht : e.type_ = some "chat_message") (hp : e.parseOk = true)
    (hc : e.content.getD "" ≠ "") (hs : check_message_size e.size = true)
    (hrl : (mgr_check_rate_limit m cid ev.t).1 = true)
    (hfail : backendRaises B (e.content.getD "") st.recipe = true) :
    stepConn B decode m cid st ev =
      ([.recipeUpdate (some e.msgId)
          (process_chat_message B ev.iso (e.content.getD "") st.recipe).content none],
        some ⟨(process_chat_message B ev.iso (e.content.getD "") st.recipe).recipe, some e.msgId⟩,
        (mgr_check_rate_limit m cid ev.t).2) ∧
    (process_chat_message B ev.iso (e.content.getD "") st.recipe).content ≠ "" := by
  obtain ⟨hrd, s, hcont⟩ := process_on_raise_aux B ev.iso (e.content.getD "") st.recipe hfail
  constructor
  · rw [stepConn_chat_eq he ht hp hc hs hrl, hrd]
  · rw [hcont]
    exact apologyStem_append_ne_empty s

/-- Witness for C1 at a concrete failing extraction. -/
theorem C1_chat_failure_contained_witness :
    backendRaises failBackendA (wChatEnv.content.getD "") wRecipe = true ∧
    (stepConn failBackendA wDecode emptyManager "c1" ⟨wRecipe, none⟩ wEvent =
      ([.recipeUpdate (some wChatEnv.msgId)
          (process_chat_message failBackendA wEvent.iso (wChatEnv.content.getD "") wRecipe).content none],
        some ⟨(process_chat_message failBackendA wEvent.iso (wChatEnv.content.getD "") wRecipe).recipe,
          some wChatEnv.msgId⟩,
        (mgr_check_rate_limit emptyManager "c1" wEvent.t).2) ∧
      (process_chat_message failBackendA wEvent.iso (wChatEnv.content.getD "") wRecipe).content ≠ "") :=
  ⟨by decide,
    C1_chat_failure_contained failBackendA wDecode emptyManager "c1" ⟨wRecipe, none⟩ wEvent wChatEnv
      rfl rfl rfl (by decide) (by decide) (by decide) (by decide)⟩

/-- C2 counterexample: the apology `content` is not one fixed string — two
different backend exceptions on the same failing `chat_message` produce two
different contents, and the first exception's text appears verbatim in the
reply. -/
theorem C2_apology_not_fixed_counterexample :
    (process_chat_message failBackendA "2025-01-01T00:00:00"
        "extract recipe from: Pasta. Boil." wRecipe).content ≠
      (process_chat_message failBackendB "2025-01-01T00:00:00"
        "extract recipe from: Pasta. Boil." wRecipe).content ∧
    strContains (process_chat_message failBackendA "2025-01-01T00:00:00"
        "extract recipe from: Pasta. Boil." wRecipe).content "OpenAI API error" = true := by
  constructor
  · decide
  · decide

/-- C2 amended: every failure inside `process_chat_message` yields content
that starts with the fixed apology stem
"Sorry, I couldn\x27t process that request. " — the exception's own text is
appended after it — and `recipe_data` is null. -/
theorem C2_apology_stem_on_failure
    (B : Backend) (now msg : String) (recipe : Recipe)
    (h : backendRaises B msg recipe = true) :
    (∃ s, (process_chat_message B now msg recipe).content = apologyStem ++ s) ∧
    (process_chat_message B now msg recipe).recipe_data = none := by
  obtain ⟨h1, h2⟩ := process_on_raise_aux B now msg recipe h
  exact ⟨h2, h1⟩

/-- Witness for the amended C2 at a concrete failing suggestion request. -/
theorem C2_apology_stem_on_failure_witness :
    backendRaises failBackendA "suggest a wine" wIngRecipe = true ∧
    ((∃ s, (process_chat_message failBackendA "2025-01-01T00:00:00"
        "suggest a wine" wIngRecipe).content = apologyStem ++ s) ∧
      (process_chat_message failBackendA "2025-01-01T00:00:00"
        "suggest a wine" wIngRecipe).recipe_data = none) :=
  ⟨by decide,
    C2_apology_stem_on_failure failBackendA "2025-01-01T00:00:00" "suggest a wine" wIngRecipe
      (by decide)⟩

/-- C5: in the Connected loop an inbound frame above the 64 KiB ceiling
closes the connection with code 1009 before the rate limiter is consulted:
the manager — including the rate window — is left exactly as it was. -/
theorem C5_oversize_closes_before_rate_check
    (B : Backend) (decode : Option String → Option TokenPayload)
    (m : Manager) (cid : String) (st : ConnState) (ev : Event) (e : Envelope)
    (he : ev.ev = .env e) (hs : check_message_size e.size = false) :
    stepConn B decode m cid st ev = ([.close 1009 "Message too large"], none, m) := by
  obtain ⟨t, iso, wall, iv⟩ := ev
  simp only at he
  subst he
  simp [stepConn, hs]

/-- Witness for C5 at a 70000-byte frame. -/
theorem C5_oversize_closes_before_rate_check_witness :
    check_message_size wBigEnv.size = false ∧
    stepConn failBackendA wDecode emptyManager "c1" ⟨wRecipe, none⟩ wBigEvent =
      ([.close 1009 "Message too large"], none, emptyManager) :=
  ⟨by decide,
    C5_oversize_closes_before_rate_check failBackendA wDecode emptyManager "c1" ⟨wRecipe, none⟩
      wBigEvent wBigEnv rfl (by decide)⟩

/-- C10: a frame that fails JSON decoding closes the connection with 1008 /
"Invalid JSON", and any other receive failure closes with 1008 /
"Invalid message format"; in both cases the connection terminates and no
`recipe_update` is emitted for that frame. -/
theorem C10_invalid_json_terminal
    (B : Backend) (decode : Option String → Option TokenPayload)
    (m : Manager) (cid : String) (st : ConnState) (t : ℚ) (iso : String) (wall : Int) :
    stepConn B decode m cid st ⟨t, iso, wall, .badJson⟩ =
      ([.close 1008 "Invalid JSON"], none, m) ∧
    stepConn B decode m cid st ⟨t, iso, wall, .badFormat⟩ =
      ([.close 1008 "Invalid message format"], none, m) :=
  ⟨rfl, rfl⟩

/-- C3: a fresh connection whose first envelope is not of type `auth` is
closed with code 1008 and reason "First message must be auth"; the handler's
entire output is that single close, so no `recipe_update` is ever sent, and
the registry is untouched. -/
theorem C3_first_message_not_auth_closes
    (B : Backend) (decode : Option String → Option TokenPayload)
    (userExists : String → Bool) (findRecipe : String → Option Recipe)
    (wallNow : Int) (authT : ℚ) (recipe_id sockId : String)
    (m0 : Manager) (events : List Event) (e : Envelope)
    (ht : e.type_ ≠ some "auth") :
    handle_chat_full B decode userExists findRecipe wallNow authT recipe_id sockId m0
      (.got e) events = ⟨[.close 1008 "First message must be auth"], m0⟩ := by
  have ha : authPhase decode wallNow userExists findRecipe (.got e) =
      .closed 1008 "First message must be auth" := by
    simp only [authPhase]
    rw [if_pos ht]
  simp only [handle_chat_full, ha]

/-- Witness for C3 with a `chat_message` sent first. -/
theorem C3_first_message_not_auth_closes_witness :
    (wNotAuthEnv.type_ ≠ some "auth") ∧
    handle_chat_full failBackendA wDecodeTok wUserExists wFindRecipe 1000 5 "r1" "sock1"
      emptyManager (.got wNotAuthEnv) [] =
      ⟨[.close 1008 "First message must be auth"], emptyManager⟩ :=
  ⟨by decide,
    C3_first_message_not_auth_closes failBackendA wDecodeTok wUserExists wFindRecipe 1000 5
      "r1" "sock1" emptyManager [] wNotAuthEnv (by decide)⟩

/-- C6: a first `auth` envelope whose token decodes but is expired closes the
connection with code 1008 and reason "Token expired" (which contains
"expired"); the close is the handler's only output, so nothing else is
exchanged. -/
theorem C6_expired_token_closes
    (B : Backend) (decode : Option String → Option TokenPayload)
    (userExists : String → Bool) (findRecipe : String → Option Recipe)
    (wallNow : Int) (authT : ℚ) (recipe_id sockId : String)
    (m0 : Manager) (events : List Event) (e : Envelope) (p : TokenPayload)
    (ht : e.type_ = some "auth") (hp : e.parseOk = true)
    (htok : e.token.getD "" ≠ "")
    (hdec : decode (some (e.token.getD "")) = some p)
    (hexp : is_token_expired wallNow (p.exp.getD 0) = true) :
    handle_chat_full B decode userExists findRecipe wallNow authT recipe_id sockId m0
      (.got e) events = ⟨[.close 1008 "Token expired"], m0⟩ := by
  have ha : authPhase decode wallNow userExists findRecipe (.got e) =
      .closed 1008 "Token expired" := by
    simp [authPhase, ht, hp, htok, hdec, hexp]
  simp only [handle_chat_full, ha]

/-- Witness for C6 with the concrete expired token. -/
theorem C6_expired_token_closes_witness :
    is_token_expired 1000 (((⟨some 100, some "alice"⟩ : TokenPayload)).exp.getD 0) = true ∧
    handle_chat_full failBackendA wExpDecode wUserExists wFindRecipe 1000 5 "r1" "sock1"
      emptyManager (.got wExpEnv) [] = ⟨[.close 1008 "Token expired"], emptyManager⟩ :=
  ⟨by decide,
    C6_expired_token_closes failBackendA wExpDecode wUserExists wFindRecipe 1000 5 "r1" "sock1"
      emptyManager [] wExpEnv ⟨some 100, some "alice"⟩ rfl rfl (by decide) (by decide) (by decide)⟩

/-- C7: the Expiry Monitor computes `max(0, expiry - now - 60)` but guards the
whole warning block behind `if time_until_warning > 0`, so when the wake time
is already past (expiry at most 60 s away) it does NOT fire immediately — it
sends nothing at all and the coroutine ends. With expiry 190 s away it does
sleep, send the warning, and wait 30 s. -/
theorem C7_monitor_no_fire_when_wake_past :
    monitor_token_expiry_first_phase 130 100 = [] ∧
    monitor_token_expiry_first_phase 300 100 =
      [.sleep 140, .sendAuthRequired "Token expiring soon", .waitReauth 30] := by
  have hmax1 : max (0 : ℚ) (130 - 100 - 60) = 0 := by
    rw [max_eq_left]
    norm_num
  have hmax2 : max (0 : ℚ) (300 - 100 - 60) = 140 := by
    rw [show (300 : ℚ) - 100 - 60 = 140 by norm_num]
    exact max_eq_right (by norm_num)
  constructor
  · simp only [monitor_token_expiry_first_phase, hmax1]
    norm_num
  · simp only [monitor_token_expiry_first_phase, hmax2]
    norm_num

/-- Modify and suggest are only reachable with a non-empty ingredients list. -/
lemma intentStep_needs_ingredients (msg : String) (cur : RecipeData)
    (h : cur.ingredients = []) :
    intentStep msg cur ≠ .modifyS ∧ intentStep msg cur ≠ .suggestS := by
  simp only [intentStep, h]
  constructor <;>
  · intro hc
    split at hc
    · simp_all
    · split at hc
      · simp_all
      · split at hc
        · simp_all
        · split at hc <;> simp_all

/-- C8: intent classification is the fixed case-insensitive keyword chain
extract → create → modify → suggest → fallback with first match winning: a
message containing an extract/paste/copy keyword always takes the extraction
step (never creation); the modify and suggest steps require the current
document to have ingredients; a message matching nothing takes the fallback,
which leaves the recipe row untouched and returns the fixed help message for
the empty or populated document. -/
theorem C8_intent_routing_order (B : Backend) (now msg : String) (recipe : Recipe) :
    (containsAny (lowerStr msg) extractKWs = true →
      intentStep msg recipe.recipe_data = .extractS) ∧
    ((intentStep msg recipe.recipe_data = .modifyS ∨
        intentStep msg recipe.recipe_data = .suggestS) →
      recipe.recipe_data.ingredients ≠ []) ∧
    (intentStep msg recipe.recipe_data = .fallbackS →
      (process_chat_message B now msg recipe).recipe = recipe ∧
      (process_chat_message B now msg recipe).content =
        (if recipe.recipe_data.ingredients.isEmpty then helpEmptyMsg else helpFullMsg)) := by
  refine ⟨?_, ?_, ?_⟩
  · intro h
    simp [intentStep, h]
  · intro h
    by_cases hne : recipe.recipe_data.ingredients = []
    · exfalso
      obtain ⟨h1, h2⟩ := intentStep_needs_ingredients msg recipe.recipe_data hne
      rcases h with h | h
      · exact h1 h
      · exact h2 h
    · exact hne
  · intro h
    cases hne : recipe.recipe_data.ingredients.isEmpty
    · simp [process_chat_message, h, hne]
    · simp [process_chat_message, h, hne]

/-- Witness for C8 exercising all three components at concrete messages. -/
theorem C8_intent_routing_order_witness :
    (containsAny (lowerStr "EXTRACT this: x") extractKWs = true ∧
      intentStep "EXTRACT this: x" wRecipe.recipe_data = .extractS) ∧
    (intentStep "change it" wIngRecipe.recipe_data = .modifyS ∧
      wIngRecipe.recipe_data.ingredients ≠ []) ∧
    (intentStep "hello there" wRecipe.recipe_data = .fallbackS ∧
      ((process_chat_message failBackendA "2025-01-01T00:00:00" "hello there" wRecipe).recipe =
          wRecipe ∧
        (process_chat_message failBackendA "2025-01-01T00:00:00" "hello there" wRecipe).content =
          (if wRecipe.recipe_data.ingredients.isEmpty then helpEmptyMsg else helpFullMsg))) :=
  ⟨⟨by decide,
      (C8_intent_routing_order failBackendA "2025-01-01T00:00:00" "EXTRACT this: x" wRecipe).1
        (by decide)⟩,
    ⟨by decide,
      (C8_intent_routing_order failBackendA "2025-01-01T00:00:00" "change it" wIngRecipe).2.1
        (Or.inl (by decide))⟩,
    ⟨by decide,
      (C8_intent_routing_order failBackendA "2025-01-01T00:00:00" "hello there" wRecipe).2.2
        (by decide)⟩⟩

/-- C4: the rate limiter admits a message iff strictly fewer than 30 stamps
survive pruning to the trailing 60-second window, appending the new stamp on
admit and recording nothing new on reject; consequently, 31 admissible
`chat_message` envelopes arriving within one 60-second window on a freshly
registered connection get 30 `recipe_update` replies and the 31st closes the
connection with 1008 / "Rate limit exceeded". -/
theorem C4_rate_limit_characterization_and_scenario :
    (∀ (m : Manager) (cid : String) (now : ℚ),
      ((mgr_check_rate_limit m cid now).1 = true ↔
        (((assocGet m.message_counts cid).getD []).filter (fun t => now - t < 60)).length <
          MAX_MESSAGES_PER_MINUTE) ∧
      assocGet (mgr_check_rate_limit m cid now).2.message_counts cid =
        some (if (((assocGet m.message_counts cid).getD []).filter
                  (fun t => now - t < 60)).length < MAX_MESSAGES_PER_MINUTE
              then (((assocGet m.message_counts cid).getD []).filter
                  (fun t => now - t < 60)) ++ [now]
              else (((assocGet m.message_counts cid).getD []).filter
                  (fun t => now - t < 60)))) ∧
    (∀ (B : Backend) (decode : Option String → Option TokenPayload) (a : ℚ)
        (m : Manager) (cid : String) (st : ConnState) (evs : List Event),
      evs.length = 31 →
      (∀ ev ∈ evs, goodChatEv ev = true ∧ a ≤ ev.t ∧ ev.t < a + 60) →
      assocGet m.message_counts cid = some [] →
      ∃ outs30,
        (runConn B decode m cid st evs).1 = outs30 ++ [.close 1008 "Rate limit exceeded"] ∧
        outs30.length = 30 ∧
        (∀ o ∈ outs30, isRecipeUpdate o = true) ∧
        (runConn B decode m cid st evs).2.1 = none) := by
  constructor
  · intro m cid now
    constructor
    · rw [mgr_check_rate_limit_fst]
      exact decide_eq_true_iff
    · exact mgr_check_rate_limit_snd_counts m cid now
  · intro B decode a m cid st evs hlen hg hmc
    have hm0 : (assocGet m.message_counts cid).getD [] = [] := by rw [hmc]; rfl
    have hg30 : ∀ ev ∈ evs.take 30, goodChatEv ev = true ∧ a ≤ ev.t ∧ ev.t < a + 60 :=
      fun ev h => hg ev (List.take_subset 30 evs h)
    have H := runConn_admits B decode a cid (evs.take 30) m st hg30
      (by rw [hm0]; intro s hs; simp at hs)
      (by
        rw [hm0, List.length_take, hlen]
        simp only [List.length_nil, MAX_MESSAGES_PER_MINUTE]
        omega)
    obtain ⟨⟨st1, hfin⟩, hall, hlenO, hcnt⟩ := H
    obtain ⟨e31, hd⟩ : ∃ e31, evs.drop 30 = [e31] := by
      apply List.length_eq_one.mp
      rw [List.length_drop, hlen]
    have hsplit : evs = evs.take 30 ++ [e31] := by rw [← hd, List.take_append_drop]
    have hR : runConn B decode m cid st (evs.take 30) =
        ((runConn B decode m cid st (evs.take 30)).1, some st1,
          (runConn B decode m cid st (evs.take 30)).2.2) := by
      rw [← hfin]
    have happ := runConn_append_of_some B decode cid (evs.take 30) m st
      (runConn B decode m cid st (evs.take 30)).1 st1
      (runConn B decode m cid st (evs.take 30)).2.2 [e31] hR
    have he31 : e31 ∈ evs := by
      rw [hsplit]
      exact List.mem_append_right _ (List.mem_singleton_self e31)
    obtain ⟨hge31, hta31, htb31⟩ := hg e31 he31
    have hwin1 : ∀ s ∈ (assocGet
        (runConn B decode m cid st (evs.take 30)).2.2.message_counts cid).getD [],
        e31.t - s < 60 := by
      rw [hcnt, hm0]
      intro s hs
      simp only [List.nil_append] at hs
      obtain ⟨ev2, hmem, hevt⟩ := List.mem_map.mp hs
      have h2 := (hg ev2 (List.take_subset 30 evs hmem)).2.1
      rw [← hevt]
      linarith
    have hfull : MAX_MESSAGES_PER_MINUTE ≤ ((assocGet
        (runConn B decode m cid st (evs.take 30)).2.2.message_counts cid).getD []).length := by
      rw [hcnt, hm0]
      simp only [List.nil_append, List.length_map, List.length_take, hlen,
        MAX_MESSAGES_PER_MINUTE]
      omega
    have hrej := rate_reject_of_full _ cid e31.t hwin1 hfull
    have hstep31 := @stepConn_rate_reject B decode
      (runConn B decode m cid st (evs.take 30)).2.2 cid st1 e31 hge31 hrej
    have hrun1 : runConn B decode (runConn B decode m cid st (evs.take 30)).2.2 cid st1 [e31] =
        ([.close 1008 "Rate limit exceeded"], none,
          (mgr_check_rate_limit (runConn B decode m cid st (evs.take 30)).2.2 cid e31.t).2) := by
      simp only [runConn, hstep31]
    have hfull2 : runConn B decode m cid st evs =
        ((runConn B decode m cid st (evs.take 30)).1 ++ [Outbound.close 1008 "Rate limit exceeded"],
          none,
          (mgr_check_rate_limit (runConn B decode m cid st (evs.take 30)).2.2 cid e31.t).2) := by
      conv_lhs => rw [hsplit]
      rw [happ, hrun1]
    refine ⟨(runConn B decode m cid st (evs.take 30)).1, ?_, ?_, hall, ?_⟩
    · rw [hfull2]
    · rw [hlenO, List.length_take, hlen]
      decide
    · rw [hfull2]

/-- Witness for C4's scenario: 31 identical admissible chat messages at time
0 on a freshly registered connection. -/
theorem C4_rate_limit_witness :
    (List.replicate 31 wEvent).length = 31 ∧
    (∃ outs30,
      (runConn failBackendA wDecode wCountsManager "c1" ⟨wRecipe, none⟩
          (List.replicate 31 wEvent)).1 =
        outs30 ++ [.close 1008 "Rate limit exceeded"] ∧
      outs30.length = 30 ∧
      (∀ o ∈ outs30, isRecipeUpdate o = true) ∧
      (runConn failBackendA wDecode wCountsManager "c1" ⟨wRecipe, none⟩
          (List.replicate 31 wEvent)).2.1 = none) :=
  ⟨by decide,
    C4_rate_limit_characterization_and_scenario.2 failBackendA wDecode 0 wCountsManager "c1"
      ⟨wRecipe, none⟩ (List.replicate 31 wEvent) (by decide)
      (by
        intro ev hev
        rw [List.eq_of_mem_replicate hev]
        refine ⟨by decide, by norm_num [wEvent], by norm_num [wEvent]⟩)
      (by decide)⟩

/-- C9: the handler registers a connection only when the authentication
prologue fully succeeds (any other outcome leaves the manager untouched),
and on every exit path of the handler — auth-time closes, the connection-cap
refusal, a terminal close inside the loop, or the transport disconnecting —
the `finally` block leaves the connection id unregistered and its rate
window deleted. -/
theorem C9_registry_lifecycle
    (B : Backend) (decode : Option String → Option TokenPayload)
    (userExists : String → Bool) (findRecipe : String → Option Recipe)
    (wallNow : Int) (authT : ℚ) (recipe_id sockId : String)
    (m0 : Manager) (fr : FirstRecv) (events : List Event) :
    ((∀ uid exp recipe,
        authPhase decode wallNow userExists findRecipe fr ≠ .connected uid exp recipe) →
      (handle_chat_full B decode userExists findRecipe wallNow authT recipe_id sockId m0
        fr events).mgr = m0) ∧
    (∀ uid exp recipe,
      authPhase decode wallNow userExists findRecipe fr = .connected uid exp recipe →
      assocGet m0.active_connections (uid ++ ":" ++ recipe_id ++ ":" ++ sockId) = none →
      assocGet m0.message_counts (uid ++ ":" ++ recipe_id ++ ":" ++ sockId) = none →
      assocGet (handle_chat_full B decode userExists findRecipe wallNow authT recipe_id sockId
          m0 fr events).mgr.active_connections (uid ++ ":" ++ recipe_id ++ ":" ++ sockId) = none ∧
      assocGet (handle_chat_full B decode userExists findRecipe wallNow authT recipe_id sockId
          m0 fr events).mgr.message_counts (uid ++ ":" ++ recipe_id ++ ":" ++ sockId) = none) := by
  constructor
  · intro hno
    cases ha : authPhase decode wallNow userExists findRecipe fr with
    | closed c r => simp [handle_chat_full, ha]
    | connected uid exp recipe => exact absurd ha (hno uid exp recipe)
  · intro uid exp recipe ha hact hcnt
    simp only [handle_chat_full, ha]
    cases hc : (mgr_connect m0 (uid ++ ":" ++ recipe_id ++ ":" ++ sockId) uid).1 with
    | false =>
      simp only [hc, Bool.not_false, if_true]
      obtain ⟨hk1, hk2⟩ := mgr_connect_reject m0 (uid ++ ":" ++ recipe_id ++ ":" ++ sockId) uid hc
      have hno2 : assocGet (mgr_connect m0 (uid ++ ":" ++ recipe_id ++ ":" ++ sockId)
          uid).2.active_connections (uid ++ ":" ++ recipe_id ++ ":" ++ sockId) = none := by
        rw [hk1]
        exact hact
      have hdis : mgr_disconnect (mgr_connect m0 (uid ++ ":" ++ recipe_id ++ ":" ++ sockId) uid).2
          (uid ++ ":" ++ recipe_id ++ ":" ++ sockId) =
          (mgr_connect m0 (uid ++ ":" ++ recipe_id ++ ":" ++ sockId) uid).2 := by
        simp only [mgr_disconnect, hno2]
      rw [hdis, hk1, hk2]
      exact ⟨hact, hcnt⟩
    | true =>
      simp only [hc, Bool.not_true, Bool.false_eq_true, if_false]
      have hreg := runConn_keeps_registry B decode (uid ++ ":" ++ recipe_id ++ ":" ++ sockId)
        events
        ⟨assocSet (mgr_connect m0 (uid ++ ":" ++ recipe_id ++ ":" ++ sockId) uid).2.active_connections
            (uid ++ ":" ++ recipe_id ++ ":" ++ sockId) ⟨uid, some authT, some exp⟩,
          (mgr_connect m0 (uid ++ ":" ++ recipe_id ++ ":" ++ sockId) uid).2.user_connections,
          (mgr_connect m0 (uid ++ ":" ++ recipe_id ++ ":" ++ sockId) uid).2.message_counts⟩
        ⟨recipe, none⟩
      have hsome : assocGet (runConn B decode
          ⟨assocSet (mgr_connect m0 (uid ++ ":" ++ recipe_id ++ ":" ++ sockId) uid).2.active_connections
              (uid ++ ":" ++ recipe_id ++ ":" ++ sockId) ⟨uid, some authT, some exp⟩,
            (mgr_connect m0 (uid ++ ":" ++ recipe_id ++ ":" ++ sockId) uid).2.user_connections,
            (mgr_connect m0 (uid ++ ":" ++ recipe_id ++ ":" ++ sockId) uid).2.message_counts⟩
          (uid ++ ":" ++ recipe_id ++ ":" ++ sockId) ⟨recipe, none⟩ events).2.2.active_connections
          (uid ++ ":" ++ recipe_id ++ ":" ++ sockId) = some ⟨uid, some authT, some exp⟩ := by
        rw [hreg.1]
        exact assocGet_assocSet_self _ _ _
      exact mgr_disconnect_clears _ _ _ hsome

/-- Witness for C9: a successful authentication followed by an immediate
transport disconnect leaves the fresh registry with the connection id
unregistered and no rate window. -/
theorem C9_registry_lifecycle_witness :
    authPhase wDecodeTok 1000 wUserExists wFindRecipe (.got wAuthEnv) =
      .connected "alice" 2000000000 wRecipe ∧
    (assocGet (handle_chat_full failBackendA wDecodeTok wUserExists wFindRecipe 1000 5 "r1"
        "sock1" emptyManager (.got wAuthEnv) []).mgr.active_connections
        ("alice" ++ ":" ++ "r1" ++ ":" ++ "sock1") = none ∧
      assocGet (handle_chat_full failBackendA wDecodeTok wUserExists wFindRecipe 1000 5 "r1"
        "sock1" emptyManager (.got wAuthEnv) []).mgr.message_counts
        ("alice" ++ ":" ++ "r1" ++ ":" ++ "sock1") = none) :=
  ⟨by decide,
    (C9_registry_lifecycle failBackendA wDecodeTok wUserExists wFindRecipe 1000 5 "r1" "sock1"
        emptyManager (.got wAuthEnv) []).2 "alice" 2000000000 wRecipe (by decide) (by decide)
      (by decide)⟩
